import Mathlib

/-!
Verification of the validation-and-update subsystem of `src/server.js`
(shiptivitas client board API).

The store is modelled as a pure list of client rows; each request handler
becomes a pure function from the current store and the request data to a
response together with the store after the request.  JavaScript numbers
that may be `NaN` (the results of `parseInt`) are modelled as `Option Int`,
with `none` standing for `NaN`.  Store level I/O failures (the 500
branches) are outside the pure model and are noted in comments where the
source has them.
-/

namespace Shiptivitas

/-- A stored client row.  `id`, `status` and `priority` are the columns the
core reads and writes; `name` stands for the opaque auxiliary payload the
core never touches. -/
structure Client where
  id : Int
  status : String
  priority : Int
  name : String
deriving DecidableEq, Repr

/-- Error body sent with a rejected request.  In the source most bodies are
`\x7b message, long_message \x7d`; two literals omit `long_message`, which the
`Option` records as `none`. -/
structure ErrBody where
  message : String
  long_message : Option String
deriving DecidableEq, Repr

/-- The StrWhiteSpace set that `parseInt` skips at the front: tab, the
line terminators, vertical tab, form feed, space, no-break space, the
Unicode space separators, the line and paragraph separators, narrow
no-break space, medium mathematical space, ideographic space and the byte
order mark. -/
def isJsWhitespace (c : Char) : Bool :=
  let n := c.toNat
  n == 9 || n == 10 || n == 11 || n == 12 || n == 13 || n == 32 ||
  n == 160 || n == 5760 || (decide (8192 ≤ n) && decide (n ≤ 8202)) ||
  n == 8232 || n == 8233 || n == 8239 || n == 8287 || n == 12288 || n == 65279

/-- Accumulate the leading run of decimal digits, as `parseInt` does after
the sign, ignoring everything from the first non-digit on. -/
def leadingDigitsAux : List Char → Nat → Nat
  | [], acc => acc
  | c :: cs, acc =>
    if c.isDigit then leadingDigitsAux cs (acc * 10 + (c.toNat - 48)) else acc

/-- The leading digit run of a character list, or `none` when the list does
not start with a digit (`parseInt` then yields `NaN`). -/
def leadingDigits : List Char → Option Nat
  | [] => none
  | c :: cs => if c.isDigit then some (leadingDigitsAux (c :: cs) 0) else none

/-- The value of a hexadecimal digit, lower or upper case. -/
def hexDigitVal (c : Char) : Option Nat :=
  if c.isDigit then some (c.toNat - 48)
  else if 97 ≤ c.toNat ∧ c.toNat ≤ 102 then some (c.toNat - 87)
  else if 65 ≤ c.toNat ∧ c.toNat ≤ 70 then some (c.toNat - 55)
  else none

/-- Accumulate the leading run of hexadecimal digits. -/
def leadingHexDigitsAux : List Char → Nat → Nat
  | [], acc => acc
  | c :: cs, acc =>
    match hexDigitVal c with
    | some d => leadingHexDigitsAux cs (acc * 16 + d)
    | none => acc

/-- The leading hexadecimal digit run, or `none` when the list does not
start with a hexadecimal digit. -/
def leadingHexDigits : List Char → Option Nat
  | [] => none
  | c :: cs =>
    match hexDigitVal c with
    | some _ => some (leadingHexDigitsAux (c :: cs) 0)
    | none => none

/-- Model of JavaScript `parseInt(s, 10)`, the parse the handlers apply to
the `:id` route parameter: skip leading whitespace, accept an optional
sign, then read the leading run of decimal digits; `none` models `NaN`
(no digit found).  Trailing non-digit characters are ignored, so "3.5"
parses to 3, and "0x10" parses to 0. -/
def jsParseInt (s : String) : Option Int :=
  let cs := s.data.dropWhile isJsWhitespace
  match cs with
  | '-' :: rest => (leadingDigits rest).map (fun n => -(n : Int))
  | '+' :: rest => (leadingDigits rest).map (fun n => (n : Int))
  | rest => (leadingDigits rest).map (fun n => (n : Int))

/-- The magnitude part of a radix-less `parseInt`: a "0x"/"0X" prefix
switches to hexadecimal, anything else is read in decimal. -/
def jsParseUnsignedNoRadix (cs : List Char) : Option Nat :=
  match cs with
  | '0' :: 'x' :: rest => leadingHexDigits rest
  | '0' :: 'X' :: rest => leadingHexDigits rest
  | _ => leadingDigits cs

/-- Model of JavaScript `parseInt(s)` with no radix argument, the parse
the update handler applies to the supplied priority: like `jsParseInt`,
but a "0x"/"0X" prefix after the optional sign makes the digits
hexadecimal, so "0x10" parses to 16. -/
def jsParseIntNoRadix (s : String) : Option Int :=
  let cs := s.data.dropWhile isJsWhitespace
  match cs with
  | '-' :: rest => (jsParseUnsignedNoRadix rest).map (fun n => -(n : Int))
  | '+' :: rest => (jsParseUnsignedNoRadix rest).map (fun n => (n : Int))
  | rest => (jsParseUnsignedNoRadix rest).map (fun n => (n : Int))

/-- JavaScript truthiness of an optional string value: `undefined` and the
empty string are falsy, every other string is truthy. -/
def jsTruthyStr : Option String → Bool
  | some s => !(s == "")
  | none => false

/-- The closed status set of the board, as listed in the source. -/
def fixedStatusSet : List String := ["backlog", "in-progress", "complete"]

/-- Body of the malformed-identifier rejection (`validateId`, NaN branch). -/
def idNotIntBody : ErrBody :=
  { message := "Invalid id provided.", long_message := some "Id can only be integer." }

/-- Body of the unknown-identifier rejection (`validateId`, no-row branch). -/
def idNotFoundBody : ErrBody :=
  { message := "Invalid id provided.", long_message := some "Cannot find client with that id." }

/-- Body of the invalid-status rejection inside the PUT handler. -/
def invalidStatusPutBody : ErrBody :=
  { message := "Invalid status provided.",
    long_message := some "Status must be one of: backlog, in-progress, complete." }

/-- Body of the invalid-status rejection of the list endpoint. -/
def invalidStatusQueryBody : ErrBody :=
  { message := "Invalid status provided.",
    long_message := some "Status can only be one of the following: [backlog | in-progress | complete]." }

/-- Body of the invalid-priority rejection (`validatePriority`). -/
def invalidPriorityBody : ErrBody :=
  { message := "Invalid priority provided.",
    long_message := some "Priority can only be positive integer." }

/-- Body of the nothing-to-update rejection; the source literal has no
`long_message` field. -/
def noFieldsBody : ErrBody :=
  { message := "No valid fields to update.", long_message := none }

/-- Body of the 404 branch of the PUT handler; the source literal has no
`long_message` field. -/
def clientNotFoundBody : ErrBody :=
  { message := "Client not found.", long_message := none }

/-- Result of `validateId` as delivered to its callback. -/
inductive IdCheck where
  | invalid (messageObj : ErrBody)
  | valid
deriving DecidableEq, Repr

/-- Model of `validateId` from the source: reject `NaN` identifiers, then
look the row up in the store and reject when no row matches.  The `id`
argument is the already parsed identifier, `none` standing for `NaN`. -/
def validateId (store : List Client) (id : Option Int) : IdCheck :=
  match id with
  | none => .invalid idNotIntBody
  | some i =>
    match store.find? (fun c => c.id == i) with
    | none => .invalid idNotFoundBody
    | some _ => .valid

/-- Result of `validatePriority`. -/
inductive PriorityCheck where
  | invalid (messageObj : ErrBody)
  | valid
deriving DecidableEq, Repr

/-- Model of `validatePriority` from the source: the argument is the result
of `parseInt` on the supplied value (`none` = `NaN`); `NaN` and anything
below 1 are rejected with one shared message. -/
def validatePriority (priority : Option Int) : PriorityCheck :=
  match priority with
  | none => .invalid invalidPriorityBody
  | some p => if p < 1 then .invalid invalidPriorityBody else .valid

/-- Response of the get-one endpoint: an error body with its code, or a 200
whose body is the row found by the final lookup (`none` models the
`undefined` row `send` would receive, a branch that is in fact dead). -/
inductive GetResult where
  | err (code : Nat) (body : ErrBody)
  | ok (row : Option Client)
deriving DecidableEq, Repr

/-- Model of `GET /api/v1/clients/:id`: parse the identifier, run
`validateId`, then query the row again and send it. -/
def getClientById (store : List Client) (raw : String) : GetResult :=
  let id? := jsParseInt raw
  match validateId store id? with
  | .invalid m => .err 400 m
  | .valid => .ok (id?.bind (fun i => store.find? (fun c => c.id == i)))

/-- Response of the list endpoint. -/
inductive ListResult where
  | err (code : Nat) (body : ErrBody)
  | ok (rows : List Client)
deriving DecidableEq, Repr

/-- Model of `GET /api/v1/clients`: a truthy status outside the fixed set
is rejected; a truthy valid status filters the scan, a falsy one means a
full scan. -/
def listClients (store : List Client) (statusQ : Option String) : ListResult :=
  if jsTruthyStr statusQ && !(fixedStatusSet.contains (statusQ.getD "")) then
    .err 400 invalidStatusQueryBody
  else if jsTruthyStr statusQ then
    .ok (store.filter (fun c => c.status == statusQ.getD ""))
  else
    .ok store

/-- Body of a PUT request: the two optional fields of the partial update.
Both are carried as raw strings; for `priority` this models the string
conversion `parseInt` performs on whatever value the JSON body held. -/
structure PutBody where
  status : Option String
  priority : Option String
deriving DecidableEq, Repr

/-- Response of the update endpoint: an error body with its code, or a 200
carrying the refreshed full collection. -/
inductive PutResult where
  | err (code : Nat) (body : ErrBody)
  | ok (rows : List Client)
deriving DecidableEq, Repr

/-- The `UPDATE clients SET ... WHERE id = ?` write: every row whose `id`
matches receives the collected column values, every other row and every
column not collected is untouched. -/
def runUpdate (store : List Client) (id : Int)
    (stApply : Option String) (prApply : Option Int) : List Client :=
  store.map (fun c =>
    if c.id == id then
      { c with status := stApply.getD c.status, priority := prApply.getD c.priority }
    else c)

/-- Final steps of the PUT handler once both validators have passed: reject
when no column was collected, otherwise run the write and answer with the
re-read full collection. -/
def finishUpdate (store : List Client) (id : Int)
    (stApply : Option String) (prApply : Option Int) : PutResult × List Client :=
  if stApply.isNone && prApply.isNone then
    (.err 400 noFieldsBody, store)
  else
    let newStore := runUpdate store id stApply prApply
    (.ok newStore, newStore)

/-- Model of `PUT /api/v1/clients/:id`.  Returns the response together with
the store after the request.  Mirrors the source order: `validateId`, full
scan and `find` (404 when absent), the truthiness-guarded status check, the
`parseInt` plus `validatePriority` check, the empty-update check, then the
write and the re-read.  A `NaN` identifier that passed `validateId` would
fall to the 404 branch because `NaN` matches no row; both situations are in
fact unreachable. -/
def updateClient (store : List Client) (raw : String) (body : PutBody) :
    PutResult × List Client :=
  let id? := jsParseInt raw
  match validateId store id? with
  | .invalid m => (.err 400 m, store)
  | .valid =>
    match id? with
    | none => (.err 404 clientNotFoundBody, store)
    | some id =>
      match store.find? (fun c => c.id == id) with
      | none => (.err 404 clientNotFoundBody, store)
      | some _client =>
        if jsTruthyStr body.status && !(fixedStatusSet.contains (body.status.getD "")) then
          (.err 400 invalidStatusPutBody, store)
        else
          let stApply : Option String :=
            if jsTruthyStr body.status then body.status else none
          match body.priority with
          | some praw =>
            (match validatePriority (jsParseIntNoRadix praw) with
             | .invalid m => (.err 400 m, store)
             | .valid => finishUpdate store id stApply (jsParseIntNoRadix praw))
          | none => finishUpdate store id stApply none

/-- A one-row store used by concrete test inputs. -/
def store1 : List Client := [{ id := 1, status := "backlog", priority := 1, name := "Acme" }]

example : jsParseInt "1" = some 1 := by decide
example : jsParseInt "abc" = none := by decide
example : jsParseInt "3.5" = some 3 := by decide
example : jsParseInt "-7" = some (-7) := by decide
example : jsParseInt "  42x" = some 42 := by decide
example : jsParseInt "0x10" = some 0 := by decide
example : jsParseInt "\x0B1" = some 1 := by decide
example : jsParseIntNoRadix "0x10" = some 16 := by decide
example : jsParseIntNoRadix "-0X1a" = some (-26) := by decide
example : jsParseIntNoRadix "0x" = none := by decide
example : jsParseIntNoRadix "16" = some 16 := by decide
example : jsParseIntNoRadix "\x0C2" = some 2 := by decide
example : updateClient store1 "1" { status := none, priority := some "0x10" } =
    (.ok [{ id := 1, status := "backlog", priority := 16, name := "Acme" }],
     [{ id := 1, status := "backlog", priority := 16, name := "Acme" }]) := by decide
example : updateClient store1 "1" { status := some "in-progress", priority := none } =
    (.ok [{ id := 1, status := "in-progress", priority := 1, name := "Acme" }],
     [{ id := 1, status := "in-progress", priority := 1, name := "Acme" }]) := by decide
example : updateClient store1 "1" { status := some "", priority := some "2" } =
    (.ok [{ id := 1, status := "backlog", priority := 2, name := "Acme" }],
     [{ id := 1, status := "backlog", priority := 2, name := "Acme" }]) := by decide
example : updateClient store1 "1" { status := none, priority := none } =
    (.err 400 noFieldsBody, store1) := by decide
example : updateClient store1 "2" { status := some "complete", priority := none } =
    (.err 400 idNotFoundBody, store1) := by decide
example : updateClient store1 "x" { status := some "complete", priority := none } =
    (.err 400 idNotIntBody, store1) := by decide
example : updateClient store1 "1" { status := some "bogus", priority := some "0" } =
    (.err 400 invalidStatusPutBody, store1) := by decide
example : updateClient store1 "1" { status := some "backlog", priority := some "0" } =
    (.err 400 invalidPriorityBody, store1) := by decide
example : getClientById store1 "1.5" =
    .ok (some { id := 1, status := "backlog", priority := 1, name := "Acme" }) := by decide

/-! ### Helper lemmas -/

/-- A passing `validateId` means the identifier parsed and a matching row
was found. -/
theorem validateId_valid_elim (store : List Client) (id? : Option Int)
    (h : validateId store id? = .valid) :
    ∃ i c, id? = some i ∧ store.find? (fun c => c.id == i) = some c := by
  cases id? with
  | none => simp [validateId] at h
  | some i =>
    cases hf : store.find? (fun c => c.id == i) with
    | none => rw [validateId, hf] at h; cases h
    | some c => exact ⟨i, c, rfl, hf⟩

/-- A failing `validateId` carries one of its two bodies. -/
theorem validateId_invalid_elim (store : List Client) (id? : Option Int)
    (m : ErrBody) (h : validateId store id? = .invalid m) :
    m = idNotIntBody ∨ m = idNotFoundBody := by
  cases id? with
  | none =>
    simp only [validateId] at h
    injection h with h
    exact Or.inl h.symm
  | some i =>
    cases hf : store.find? (fun c => c.id == i) with
    | none =>
      simp only [validateId, hf] at h
      injection h with h
      exact Or.inr h.symm
    | some c =>
      simp only [validateId, hf] at h
      cases h

/-- A failing `validatePriority` carries the one priority body. -/
theorem validatePriority_invalid_elim (p : Option Int) (m : ErrBody)
    (h : validatePriority p = .invalid m) : m = invalidPriorityBody := by
  cases p with
  | none =>
    simp only [validatePriority] at h
    injection h with h
    exact h.symm
  | some v =>
    simp only [validatePriority] at h
    split at h
    · injection h with h
      exact h.symm
    · cases h

/-- Enumeration of the rejections the update operation can actually
produce: the code is always 400, the body is one of the five validation
bodies, and the InvalidStatus body occurs only when the supplied status is
truthy.  In particular the two 404 branches of the source are dead. -/
theorem updateClient_err_elim (store : List Client) (raw : String)
    (body : PutBody) (code : Nat) (b : ErrBody)
    (h : (updateClient store raw body).fst = .err code b) :
    code = 400 ∧
      (b = idNotIntBody ∨ b = idNotFoundBody ∨
       (b = invalidStatusPutBody ∧ jsTruthyStr body.status = true) ∨
       b = invalidPriorityBody ∨ b = noFieldsBody) := by
  simp only [updateClient] at h
  split at h
  · rename_i m heq
    rcases validateId_invalid_elim store (jsParseInt raw) m heq with hm | hm <;>
      subst hm <;> simp_all
  · rename_i heq
    rcases validateId_valid_elim store (jsParseInt raw) heq with ⟨i, c, hi, hc⟩
    rw [hi] at h
    simp only [hc] at h
    split at h
    · rename_i hcond
      have ht : jsTruthyStr body.status = true := by
        cases htr : jsTruthyStr body.status with
        | true => rfl
        | false => rw [htr] at hcond; simp at hcond
      simp_all
    · split at h
      · split at h
        · rename_i m hpr
          have hm := validatePriority_invalid_elim _ m hpr
          subst hm
          simp_all
        · simp only [finishUpdate] at h
          split at h <;> split at h <;> simp_all
      · simp only [finishUpdate] at h
        split at h <;> split at h <;> simp_all

/-! ### C3: non-parsing identifiers are rejected, no write -/

/-- The strict notion of an integer input: an optional minus sign followed
by a nonempty run of decimal digits and nothing else.  Used to state what
"the identifier input is an integer" means, independently of the lenient
`parseInt`. -/
def isIntegerLiteral (s : String) : Bool :=
  match s.data with
  | [] => false
  | '-' :: rest => !rest.isEmpty && rest.all Char.isDigit
  | cs => cs.all Char.isDigit

/-- C3 counterexample: the identifier input "1.5" is not an integer, yet
the get operation answers 200 with the row of id 1, and the update
operation writes to the store, because the source parses identifiers with
the lenient `parseInt`, which reads "1.5" as 1. -/
theorem c3_counterexample :
    isIntegerLiteral "1.5" = false ∧
    getClientById store1 "1.5" =
      .ok (some { id := 1, status := "backlog", priority := 1, name := "Acme" }) ∧
    (updateClient store1 "1.5" { status := some "complete", priority := none }).snd ≠ store1 := by
  refine ⟨by decide, by decide, by decide⟩

/-- C3 amended: for every identifier input on which the lenient integer
parse fails (no leading digits after optional sign), both the get-by-id
operation and the update operation answer 400 with the InvalidIdentifier
body, and the store is unchanged. -/
theorem c3_invalid_identifier_rejected (store : List Client) (raw : String)
    (body : PutBody) (h : jsParseInt raw = none) :
    getClientById store raw = .err 400 idNotIntBody ∧
    updateClient store raw body = (.err 400 idNotIntBody, store) := by
  constructor
  · simp [getClientById, validateId, h]
  · simp [updateClient, validateId, h]

/-- C3 witness at the concrete non-numeric input "abc". -/
theorem c3_witness :
    getClientById store1 "abc" = .err 400 idNotIntBody ∧
    updateClient store1 "abc" { status := none, priority := none } =
      (.err 400 idNotIntBody, store1) :=
  c3_invalid_identifier_rejected store1 "abc" { status := none, priority := none } (by decide)

/-! ### C4: empty partial update is rejected, store unchanged -/

/-- C4: an update request on an existing identifier that supplies neither
status nor priority is rejected with the NoFieldsToUpdate body and the
store is unchanged. -/
theorem c4_no_fields_rejected (store : List Client) (raw : String) (i : Int)
    (c : Client) (hp : jsParseInt raw = some i)
    (hf : store.find? (fun c => c.id == i) = some c) :
    updateClient store raw { status := none, priority := none } =
      (.err 400 noFieldsBody, store) := by
  simp [updateClient, validateId, hp, hf, jsTruthyStr, finishUpdate]

/-- C4 witness at the one-row store and identifier 1. -/
theorem c4_witness :
    updateClient store1 "1" { status := none, priority := none } =
      (.err 400 noFieldsBody, store1) :=
  c4_no_fields_rejected store1 "1" 1
    { id := 1, status := "backlog", priority := 1, name := "Acme" }
    (by decide) (by decide)

/-! ### C1: invalid status is rejected, nothing applied -/

/-- C1 counterexample: the empty string is a supplied status value outside
the fixed set, but the request is not rejected with InvalidStatus: the
truthiness guard of the source treats "" as absent, so the update succeeds
and applies the supplied priority. -/
theorem c1_counterexample :
    fixedStatusSet.contains "" = false ∧
    updateClient store1 "1" { status := some "", priority := some "2" } =
      (.ok [{ id := 1, status := "backlog", priority := 2, name := "Acme" }],
       [{ id := 1, status := "backlog", priority := 2, name := "Acme" }]) := by
  refine ⟨by decide, by decide⟩

/-- C1 amended: for every update request on an existing identifier whose
supplied status value is a nonempty string outside the fixed set, the
request is rejected with the InvalidStatus body and the store is unchanged,
even when a priority is supplied in the same request. -/
theorem c1_invalid_status_rejected (store : List Client) (raw : String)
    (i : Int) (c : Client) (s : String) (pr : Option String)
    (hp : jsParseInt raw = some i)
    (hf : store.find? (fun c => c.id == i) = some c)
    (hs : s ≠ "") (hset : fixedStatusSet.contains s = false) :
    updateClient store raw { status := some s, priority := pr } =
      (.err 400 invalidStatusPutBody, store) := by
  have hset2 : s ∉ fixedStatusSet := by simpa using hset
  simp [updateClient, validateId, hp, hf, jsTruthyStr, hs, hset2]

/-- C1 witness at the concrete status "bogus" with a valid priority
supplied alongside. -/
theorem c1_witness :
    updateClient store1 "1" { status := some "bogus", priority := some "2" } =
      (.err 400 invalidStatusPutBody, store1) :=
  c1_invalid_status_rejected store1 "1" 1
    { id := 1, status := "backlog", priority := 1, name := "Acme" }
    "bogus" (some "2") (by decide) (by decide) (by decide) (by decide)

/-! ### C2: invalid priority is rejected, nothing applied -/

/-- C2 counterexample: the request supplies the priority "0", which parses
to 0 < 1, so the claim requires an InvalidPriority rejection; but because
an invalid status is supplied in the same request and the source checks
status first, the rejection carries the InvalidStatus body instead. -/
theorem c2_counterexample :
    jsParseInt "0" = some 0 ∧ ((0 : Int) < 1) = True ∧
    updateClient store1 "1" { status := some "bogus", priority := some "0" } =
      (.err 400 invalidStatusPutBody, store1) ∧
    invalidStatusPutBody ≠ invalidPriorityBody := by
  refine ⟨by decide, by simp, by decide, by decide⟩

/-- C2 amended: for every update request on an existing identifier whose
supplied priority value fails the lenient integer parse or parses below 1,
and whose status (when supplied and nonempty) belongs to the fixed set, the
request is rejected with the InvalidPriority body and the store is
unchanged. -/
theorem c2_invalid_priority_rejected (store : List Client) (raw : String)
    (i : Int) (c : Client) (st : Option String) (praw : String)
    (hp : jsParseInt raw = some i)
    (hf : store.find? (fun c => c.id == i) = some c)
    (hst : jsTruthyStr st = true → fixedStatusSet.contains (st.getD "") = true)
    (hbad : jsParseIntNoRadix praw = none ∨ (jsParseIntNoRadix praw).getD 1 < 1) :
    updateClient store raw { status := st, priority := some praw } =
      (.err 400 invalidPriorityBody, store) := by
  have hval : validatePriority (jsParseIntNoRadix praw) = .invalid invalidPriorityBody := by
    cases hpr : jsParseIntNoRadix praw with
    | none => simp [validatePriority]
    | some p =>
      rcases hbad with hbad | hbad
      · rw [hpr] at hbad; cases hbad
      · rw [hpr] at hbad
        simp only [Option.getD_some] at hbad
        simp [validatePriority, hbad]
  cases htr : jsTruthyStr st with
  | false => simp [updateClient, validateId, hp, hf, htr, hval]
  | true =>
    have hset2 : st.getD "" ∈ fixedStatusSet := by simpa using hst htr
    simp [updateClient, validateId, hp, hf, htr, hset2, hval]

/-- C2 witness at the concrete priority "0" with the valid status
"backlog" supplied alongside. -/
theorem c2_witness :
    updateClient store1 "1" { status := some "backlog", priority := some "0" } =
      (.err 400 invalidPriorityBody, store1) :=
  c2_invalid_priority_rejected store1 "1" 1
    { id := 1, status := "backlog", priority := 1, name := "Acme" }
    (some "backlog") "0" (by decide) (by decide) (by decide)
    (Or.inr (by decide))

/-! ### C9: a falsy supplied status is treated as absent -/

/-- C9: supplying the empty string as status never yields the
InvalidStatus rejection, and when priority is absent as well the request
on an existing identifier is rejected with the NoFieldsToUpdate body, the
store unchanged: the truthiness guard treats the falsy status as absent. -/
theorem c9_falsy_status_absent (store : List Client) (raw : String)
    (pr : Option String) :
    ((updateClient store raw { status := some "", priority := pr }).fst ≠
        .err 400 invalidStatusPutBody) ∧
    (∀ i c, jsParseInt raw = some i →
      store.find? (fun c => c.id == i) = some c → pr = none →
      updateClient store raw { status := some "", priority := pr } =
        (.err 400 noFieldsBody, store)) := by
  constructor
  · intro hbad
    have h2 := updateClient_err_elim store raw
      { status := some "", priority := pr } 400 invalidStatusPutBody
      (by rw [hbad])
    rcases h2.2 with hb | hb | ⟨hb, ht⟩ | hb | hb
    · exact absurd hb (by decide)
    · exact absurd hb (by decide)
    · simp [jsTruthyStr] at ht
    · exact absurd hb (by decide)
    · exact absurd hb (by decide)
  · intro i c hp hf hpr
    subst hpr
    simp [updateClient, validateId, hp, hf, jsTruthyStr, finishUpdate]

/-- C9 witness: concrete empty-status, absent-priority request on the
one-row store. -/
theorem c9_witness :
    ((updateClient store1 "1" { status := some "", priority := none }).fst ≠
        .err 400 invalidStatusPutBody) ∧
    updateClient store1 "1" { status := some "", priority := none } =
      (.err 400 noFieldsBody, store1) :=
  ⟨(c9_falsy_status_absent store1 "1" none).1,
   (c9_falsy_status_absent store1 "1" none).2 1
     { id := 1, status := "backlog", priority := 1, name := "Acme" }
     (by decide) (by decide) rfl⟩

/-! ### C10: the 404 branch of the update handler is unreachable -/

/-- C10: in the sequential model, where the store does not change between
the existence check of `validateId` and the re-read of the handler, the
update operation never answers with the 404 Client-not-found body; a
missing identifier is always caught by `validateId` and surfaces as the
400 InvalidIdentifier rejection. -/
theorem c10_not_found_branch_unreachable (store : List Client) (raw : String)
    (body : PutBody) :
    ((updateClient store raw body).fst ≠ .err 404 clientNotFoundBody) ∧
    (∀ i, jsParseInt raw = some i →
      store.find? (fun c => c.id == i) = none →
      updateClient store raw body = (.err 400 idNotFoundBody, store)) := by
  constructor
  · intro hbad
    have h2 := updateClient_err_elim store raw body 404 clientNotFoundBody
      (by rw [hbad])
    exact absurd h2.1 (by decide)
  · intro i hp hn
    simp [updateClient, validateId, hp, hn]

/-- C10 witness: a well-formed identifier with no matching row is rejected
with the 400 InvalidIdentifier body, never the 404 body. -/
theorem c10_witness :
    ((updateClient store1 "2" { status := some "complete", priority := none }).fst ≠
        .err 404 clientNotFoundBody) ∧
    updateClient store1 "2" { status := some "complete", priority := none } =
      (.err 400 idNotFoundBody, store1) :=
  ⟨(c10_not_found_branch_unreachable store1 "2"
      { status := some "complete", priority := none }).1,
   (c10_not_found_branch_unreachable store1 "2"
      { status := some "complete", priority := none }).2 2 (by decide) (by decide)⟩

/-! ### Success-path characterisation -/

/-- A passing `validatePriority` means the value parsed and is at least 1. -/
theorem validatePriority_valid_elim (p? : Option Int)
    (h : validatePriority p? = .valid) : ∃ p, p? = some p ∧ ¬(p < 1) := by
  cases p? with
  | none => simp [validatePriority] at h
  | some p =>
    refine ⟨p, rfl, fun hlt => ?_⟩
    simp [validatePriority, hlt] at h

/-- A truthy optional string is a nonempty string. -/
theorem jsTruthyStr_true_elim (o : Option String) (h : jsTruthyStr o = true) :
    ∃ s, o = some s ∧ s ≠ "" := by
  cases o with
  | none => simp [jsTruthyStr] at h
  | some s => exact ⟨s, rfl, by simpa [jsTruthyStr] using h⟩

/-- A successful update pins down everything: the identifier parsed, a row
was found, the status guard passed, every supplied priority validated, at
least one column was collected, and both the response and the new store are
the written collection. -/
theorem updateClient_ok_elim (store : List Client) (raw : String)
    (body : PutBody) (l s2 : List Client)
    (h : updateClient store raw body = (.ok l, s2)) :
    ∃ i c, jsParseInt raw = some i ∧
      store.find? (fun x => x.id == i) = some c ∧
      (jsTruthyStr body.status && !(fixedStatusSet.contains (body.status.getD ""))) = false ∧
      (∀ praw, body.priority = some praw → validatePriority (jsParseIntNoRadix praw) = .valid) ∧
      ((if jsTruthyStr body.status then body.status else none).isNone &&
          (body.priority.bind (fun praw => jsParseIntNoRadix praw)).isNone) = false ∧
      l = runUpdate store i (if jsTruthyStr body.status then body.status else none)
            (body.priority.bind (fun praw => jsParseIntNoRadix praw)) ∧
      s2 = l := by
  simp only [updateClient] at h
  split at h
  · simp at h
  · rename_i heq
    rcases validateId_valid_elim store (jsParseInt raw) heq with ⟨i, c, hi, hc⟩
    rw [hi] at h
    simp only [hc] at h
    refine ⟨i, c, hi, hc, ?_⟩
    split at h
    · simp at h
    · rename_i hcond0
      have hcond : (jsTruthyStr body.status &&
          !(fixedStatusSet.contains (body.status.getD ""))) = false := by
        simpa using hcond0
      refine ⟨hcond, ?_⟩
      cases hbp : body.priority with
      | some praw =>
        simp only [hbp] at h
        cases hpv : validatePriority (jsParseIntNoRadix praw) with
        | invalid m =>
          rw [hpv] at h
          simp at h
        | valid =>
          simp only [hpv] at h
          rcases validatePriority_valid_elim _ hpv with ⟨p, hpp, hge⟩
          simp [finishUpdate, hpp] at h
          obtain ⟨h1, h2⟩ := h
          refine ⟨?_, ?_, ?_, ?_⟩
          · intro praw2 hbp2
            injection hbp2 with e
            subst e
            exact hpv
          · simp [hpp]
          · simp only [Option.some_bind]
            rw [hpp]
            exact h1.symm
          · rw [← h2, ← h1]
      | none =>
        simp only [hbp] at h
        cases htr : jsTruthyStr body.status with
        | false =>
          simp [finishUpdate, htr] at h
        | true =>
          rcases jsTruthyStr_true_elim _ htr with ⟨s, hss, hne⟩
          simp [finishUpdate, hss, jsTruthyStr, hne] at h
          obtain ⟨h1, h2⟩ := h
          refine ⟨?_, ?_, ?_, ?_⟩
          · intro praw2 hbp2
            cases hbp2
          · simp [htr, hss]
          · simp [htr, hss]
            exact h1.symm
          · rw [← h2, ← h1]

/-- Converse direction: from the five conditions of a successful update,
the update operation answers 200 with the written collection, which is
also the new store. -/
theorem updateClient_ok_intro (store : List Client) (raw : String)
    (body : PutBody) (i : Int)
    (hp : jsParseInt raw = some i)
    (hfind : (store.find? (fun x => x.id == i)).isSome = true)
    (hcond : (jsTruthyStr body.status && !(fixedStatusSet.contains (body.status.getD ""))) = false)
    (hpr : ∀ praw, body.priority = some praw → validatePriority (jsParseIntNoRadix praw) = .valid)
    (hnf : ((if jsTruthyStr body.status then body.status else none).isNone &&
        (body.priority.bind (fun praw => jsParseIntNoRadix praw)).isNone) = false) :
    updateClient store raw body =
      (.ok (runUpdate store i (if jsTruthyStr body.status then body.status else none)
          (body.priority.bind (fun praw => jsParseIntNoRadix praw))),
       runUpdate store i (if jsTruthyStr body.status then body.status else none)
          (body.priority.bind (fun praw => jsParseIntNoRadix praw))) := by
  obtain ⟨c, hc⟩ := Option.isSome_iff_exists.mp hfind
  cases htr : jsTruthyStr body.status with
  | false =>
    simp only [htr, Bool.false_eq_true, if_false, Option.isNone_none,
      Bool.true_and] at hnf
    cases hbp : body.priority with
    | none =>
      rw [hbp] at hnf
      simp at hnf
    | some praw =>
      have hval := hpr praw hbp
      rw [hbp] at hnf
      simp only [Option.some_bind] at hnf
      simp [updateClient, validateId, hp, hc, htr, hbp, hval, finishUpdate, hnf]
  | true =>
    have hset : fixedStatusSet.contains (body.status.getD "") = true := by
      simpa [htr] using hcond
    rcases jsTruthyStr_true_elim _ htr with ⟨s, hss, hne⟩
    have hset2 : s ∈ fixedStatusSet := by
      rw [hss] at hset
      simpa using hset
    cases hbp : body.priority with
    | none =>
      simp [updateClient, validateId, hp, hc, jsTruthyStr, hss, hne, hset2,
        hbp, finishUpdate]
    | some praw =>
      have hval := hpr praw hbp
      simp [updateClient, validateId, hp, hc, jsTruthyStr, hss, hne, hset2,
        hbp, hval, finishUpdate]

/-- Writing the same columns twice is the same as writing them once. -/
theorem runUpdate_idem (store : List Client) (i : Int)
    (stA : Option String) (prA : Option Int) :
    runUpdate (runUpdate store i stA prA) i stA prA = runUpdate store i stA prA := by
  simp only [runUpdate, List.map_map]
  congr 1
  funext c
  by_cases hci : (c.id == i) = true
  · cases stA <;> cases prA <;> simp [Function.comp, hci]
  · simp at hci
    simp [Function.comp, hci]

/-- The write never touches the identifier column, so when a row with the
identifier exists before the write one still exists after it. -/
theorem runUpdate_find?_isSome (store : List Client) (i : Int)
    (stA : Option String) (prA : Option Int) (c : Client)
    (h : store.find? (fun x => x.id == i) = some c) :
    ((runUpdate store i stA prA).find? (fun x => x.id == i)).isSome = true := by
  have hmem : c ∈ store := List.mem_of_find?_eq_some h
  have hpc := List.find?_some h
  simp only [runUpdate]
  apply List.find?_isSome.mpr
  refine ⟨(fun (x : Client) => if x.id == i then
      { x with status := stA.getD x.status, priority := prA.getD x.priority }
    else x) c, ?_, ?_⟩
  · exact List.mem_map_of_mem _ hmem
  · simp only [] at hpc
    simp [hpc]

/-! ### C5: a successful update answers with the full post-write store -/

/-- C5: whenever the update operation succeeds, the 200 body is exactly
the full collection as it stands after the write. -/
theorem c5_full_collection (store : List Client) (raw : String)
    (body : PutBody) (l s2 : List Client)
    (h : updateClient store raw body = (.ok l, s2)) : l = s2 := by
  rcases updateClient_ok_elim store raw body l s2 h with
    ⟨i, c, _, _, _, _, _, _, hs⟩
  exact hs.symm

/-- C5 witness at a concrete successful update. -/
theorem c5_witness :
    ([{ id := 1, status := "complete", priority := 1, name := "Acme" }] : List Client) =
      [{ id := 1, status := "complete", priority := 1, name := "Acme" }] :=
  c5_full_collection store1 "1" { status := some "complete", priority := none }
    [{ id := 1, status := "complete", priority := 1, name := "Acme" }]
    [{ id := 1, status := "complete", priority := 1, name := "Acme" }]
    (by decide)

/-! ### C6: a successful update applies exactly the applied fields -/

/-- C6 counterexample: the supplied status "" is not applied even though
the update succeeds: the truthiness guard skips the falsy status, so the
record keeps its old status "backlog" while the supplied priority is
applied. -/
theorem c6_counterexample :
    updateClient store1 "1" { status := some "", priority := some "5" } =
      (.ok [{ id := 1, status := "backlog", priority := 5, name := "Acme" }],
       [{ id := 1, status := "backlog", priority := 5, name := "Acme" }]) ∧
    "backlog" ≠ "" := by
  refine ⟨by decide, by decide⟩

/-- C6 amended: on every successful update the new store arises from the
old one by rewriting exactly the rows whose identifier matches: their
status becomes the supplied status when that is truthy (nonempty) and is
kept otherwise, their priority becomes the parse of the supplied priority
when one was supplied and is kept otherwise; the identifier, the opaque
fields, and every other row are untouched. -/
theorem c6_exact_fields_applied (store : List Client) (raw : String)
    (body : PutBody) (l s2 : List Client)
    (h : updateClient store raw body = (.ok l, s2)) :
    ∃ i, jsParseInt raw = some i ∧
      s2 = store.map (fun c =>
        if c.id == i then
          { c with
            status := if jsTruthyStr body.status then body.status.getD c.status else c.status,
            priority := match body.priority with
              | some praw => (jsParseIntNoRadix praw).getD c.priority
              | none => c.priority }
        else c) := by
  rcases updateClient_ok_elim store raw body l s2 h with
    ⟨i, c, hi, _, _, _, _, hl, hs⟩
  refine ⟨i, hi, ?_⟩
  rw [hs, hl, runUpdate]
  congr 1
  funext d
  cases htr : jsTruthyStr body.status <;> cases hbp : body.priority <;> simp [htr]

/-- C6 witness: the amended statement evaluated at a concrete successful
update supplying both fields. -/
theorem c6_witness :
    ∃ i, jsParseInt "1" = some i ∧
      [{ id := 1, status := "in-progress", priority := 3, name := "Acme" }] =
        store1.map (fun c =>
          if c.id == i then
            { c with
              status := if jsTruthyStr (some "in-progress") then
                  (some "in-progress").getD c.status else c.status,
              priority := match some "3" with
                | some praw => (jsParseIntNoRadix praw).getD c.priority
                | none => c.priority }
          else c) :=
  c6_exact_fields_applied store1 "1"
    { status := some "in-progress", priority := some "3" }
    [{ id := 1, status := "in-progress", priority := 3, name := "Acme" }]
    [{ id := 1, status := "in-progress", priority := 3, name := "Acme" }]
    (by decide)

/-! ### C7: error body shape -/

/-- C7 counterexample: the nothing-to-update rejection is an error outcome
whose body carries only the short message; the source literal on the
no-fields branch has no long_message field. -/
theorem c7_counterexample :
    updateClient store1 "1" { status := none, priority := none } =
      (.err 400 noFieldsBody, store1) ∧
    noFieldsBody.long_message = none := by
  refine ⟨by decide, by decide⟩

/-- C7 amended: every rejection of the list, get-one and update operations
carries a nonempty short message; its body carries a long_message as well,
except the NoFieldsToUpdate rejection of the update operation (the 404
not-found literal also lacks one, but that branch is unreachable). -/
theorem c7_error_bodies (store : List Client) (raw : String) (body : PutBody)
    (statusQ : Option String) :
    (∀ code b, (updateClient store raw body).fst = .err code b →
      b.message ≠ "" ∧ (b.long_message = none → b = noFieldsBody)) ∧
    (∀ code b, getClientById store raw = .err code b →
      b.message ≠ "" ∧ b.long_message ≠ none) ∧
    (∀ code b, listClients store statusQ = .err code b →
      b.message ≠ "" ∧ b.long_message ≠ none) := by
  refine ⟨?_, ?_, ?_⟩
  · intro code b hb
    rcases (updateClient_err_elim store raw body code b hb).2 with
      h | h | ⟨h, _⟩ | h | h <;> subst h <;> exact ⟨by decide, by decide⟩
  · intro code b hb
    simp only [getClientById] at hb
    split at hb
    · rename_i m heq
      injection hb with h1 h2
      subst h2
      rcases validateId_invalid_elim store (jsParseInt raw) m heq with hm | hm <;>
        subst hm <;> exact ⟨by decide, by decide⟩
    · cases hb
  · intro code b hb
    simp only [listClients] at hb
    split at hb
    · injection hb with h1 h2
      subst h2
      exact ⟨by decide, by decide⟩
    · split at hb <;> cases hb

/-- C7 witness: the amended statement evaluated at concrete rejections. -/
theorem c7_witness :
    noFieldsBody.message ≠ "" ∧
      (noFieldsBody.long_message = none → noFieldsBody = noFieldsBody) :=
  (c7_error_bodies store1 "1" { status := none, priority := none } none).1
    400 noFieldsBody (by decide)

/-! ### C8: a valid partial update is idempotent -/

/-- C8: applying the same partial update a second time to the store left
by a first successful application succeeds again and leaves the store
exactly as the first application did. -/
theorem c8_idempotent (store : List Client) (raw : String) (body : PutBody)
    (l s2 : List Client) (h : updateClient store raw body = (.ok l, s2)) :
    updateClient s2 raw body = (.ok s2, s2) := by
  rcases updateClient_ok_elim store raw body l s2 h with
    ⟨i, c, hi, hfind, hcond, hpr, hnf, hl, hs⟩
  have hfind2 := runUpdate_find?_isSome store i
    (if jsTruthyStr body.status then body.status else none)
    (body.priority.bind (fun praw => jsParseIntNoRadix praw)) c hfind
  have h2 := updateClient_ok_intro s2 raw body i hi (by rw [hs, hl]; exact hfind2)
    hcond hpr hnf
  rw [h2, hs, hl, runUpdate_idem]

/-- C8 witness at a concrete valid partial update applied twice. -/
theorem c8_witness :
    updateClient [{ id := 1, status := "in-progress", priority := 4, name := "Acme" }]
        "1" { status := some "in-progress", priority := some "4" } =
      (.ok [{ id := 1, status := "in-progress", priority := 4, name := "Acme" }],
       [{ id := 1, status := "in-progress", priority := 4, name := "Acme" }]) :=
  c8_idempotent store1 "1" { status := some "in-progress", priority := some "4" }
    [{ id := 1, status := "in-progress", priority := 4, name := "Acme" }]
    [{ id := 1, status := "in-progress", priority := 4, name := "Acme" }]
    (by decide)

end Shiptivitas
